import Mathlib

/-!
Shallow embedding of `tick-feedstocks/core.py` (pmlandwehr/tick-my-feedstocks).

The Python module automates version bumps of conda-forge feedstock
repositories: it parses each feedstock's `recipe/meta.yaml`, compares the
recipe's version with the latest PyPI release, builds a find-and-replace
patch, synchronizes the user's fork and pushes the change.

External collaborators (PyPI, GitHub, the Jinja/YAML libraries) are passed
in as explicit oracle values; the module's own control flow and data
transformations are translated function by function.  Python exceptions are
made explicit with an `Except PyErr` result type; `try`/`except` blocks
become `tryExcept` combinators.  All string manipulation is re-implemented
structurally over `List Char` so every definition evaluates inside the
kernel.
-/

namespace TickFeedstocks

/-- Python exception values that the embedded code can raise or catch. -/
inductive PyErr where
  /-- `KeyError` carrying (a rendering of) the missing key. -/
  | keyError (k : String)
  /-- `TypeError`, e.g. indexing a string with a string key. -/
  | typeError
  /-- `IndexError`, e.g. `[0]` on an empty list. -/
  | indexError
  /-- `AttributeError`, e.g. a missing attribute on `None`. -/
  | attributeError
  /-- `jinja2.UndefinedError` raised while rendering a template. -/
  | undefinedError
  /-- `github.GithubException` raised by the GitHub client. -/
  | githubException
  /-- any other exception (`yaml` errors, network errors, ...). -/
  | otherError
deriving DecidableEq

/-- Results of embedded Python code are compared propositionally in the
theorems below; equality of `Except` results is decidable componentwise. -/
instance {ε α : Type} [DecidableEq ε] [DecidableEq α] : DecidableEq (Except ε α) :=
  fun x y =>
    match x, y with
    | Except.ok a, Except.ok b =>
      if h : a = b then Decidable.isTrue (by rw [h]) else Decidable.isFalse (by simp [h])
    | Except.ok _, Except.error _ => Decidable.isFalse (by simp)
    | Except.error _, Except.ok _ => Decidable.isFalse (by simp)
    | Except.error e, Except.error f =>
      if h : e = f then Decidable.isTrue (by rw [h]) else Decidable.isFalse (by simp [h])

/-! ### String primitives (Python `str` operations over `List Char`) -/

/-- `isPre n h` holds when the list `n` is an initial segment of `h`. -/
def isPre : List Char → List Char → Bool
  | [], _ => true
  | _ :: _, [] => false
  | a :: as, b :: bs => a == b && isPre as bs

/-- `n` occurs somewhere in a proper tail of `h`. -/
def infixAt : List Char → List Char → Bool
  | _, [] => false
  | n, _ :: t => isPre n t || infixAt n t

/-- `n` occurs somewhere in `h` (Python `h.find(n) >= 0`). -/
def hasSub (n h : List Char) : Bool := isPre n h || infixAt n h

/-- Python `hay.find(needle) >= 0`: the needle occurs in the haystack
(an empty needle is always found). -/
def strHas (hay needle : String) : Bool := hasSub needle.data hay.data

/-- Fuel-driven worker for `pyReplace`; the fuel starts at the haystack
length, which bounds the number of steps, so the `0` case is unreachable. -/
def replaceAllAux (old new : List Char) : Nat → List Char → List Char
  | _, [] => []
  | 0, l => l
  | fuel + 1, c :: cs =>
    if isPre old (c :: cs) && !(old.isEmpty) then
      new ++ replaceAllAux old new fuel (List.drop (old.length - 1) cs)
    else
      c :: replaceAllAux old new fuel cs

/-- Python `t.replace(old, new)`: replace every non-overlapping occurrence
of `old`, scanning left to right.  (Python's behaviour on an empty `old`,
inserting `new` at every position, is not modelled: the module only ever
replaces version and checksum strings, which are non-empty.) -/
def pyReplace (t old new : String) : String :=
  ⟨replaceAllAux old.data new.data t.data.length t.data⟩

/-- Drop leading whitespace characters. -/
def dropWs : List Char → List Char
  | [] => []
  | c :: cs => if c.isWhitespace then dropWs cs else c :: cs

/-- Python `s.strip()`: remove leading and trailing whitespace. -/
def pyStrip (s : String) : String :=
  ⟨((dropWs ((dropWs s.data).reverse)).reverse)⟩

/-- Fuel-driven worker for `pySplit` (Python `s.split(sep)` with a
non-empty separator, keeping empty fields). -/
def splitStrAux (sep : List Char) : Nat → List Char → List Char → List (List Char)
  | _, acc, [] => [acc.reverse]
  | 0, acc, l => [acc.reverse ++ l]
  | fuel + 1, acc, c :: cs =>
    if isPre sep (c :: cs) && !(sep.isEmpty) then
      acc.reverse :: splitStrAux sep fuel [] (List.drop (sep.length - 1) cs)
    else
      splitStrAux sep fuel (c :: acc) cs

/-- Python `s.split(sep)` for a non-empty separator string: split at every
occurrence of `sep`, keeping empty fields.  (Python raises `ValueError` on
an empty separator; the module only splits on `"-"`, `"."` and version
strings, which are non-empty wherever this is reached.) -/
def pySplit (s sep : String) : List String :=
  (splitStrAux sep.data s.data.length [] s.data).map (fun l => ⟨l⟩)

/-- Python `sep.join(parts)`. -/
def joinWith (sep : String) : List String → String
  | [] => ""
  | [x] => x
  | x :: y :: rest => x ++ sep ++ joinWith sep (y :: rest)

/-- Worker for `splitWs`: `acc` holds the current word reversed. -/
def splitWsAux : List Char → List Char → List (List Char)
  | acc, [] => if acc.isEmpty then [] else [acc.reverse]
  | acc, c :: cs =>
    if c.isWhitespace then
      if acc.isEmpty then splitWsAux [] cs else acc.reverse :: splitWsAux [] cs
    else
      splitWsAux (c :: acc) cs

/-- Python `s.split()` with no argument: split on runs of whitespace,
discarding empty fields. -/
def pySplitWs (s : String) : List String :=
  (splitWsAux [] s.data).map (fun l => ⟨l⟩)

/-! ### Version ordering -/

/-- Numeric value of a list of decimal digit characters. -/
def digitsVal : List Char → Nat → Nat
  | [], acc => acc
  | c :: cs, acc => digitsVal cs (acc * 10 + (c.toNat - 48))

/-- Modelled from the spec: the value of one dot-separated version
component.  `pkg_resources.parse_version` is third-party code, not part of
this repository; the spec describes the ordering as "semantic/PEP-style
version ordering (numeric-component-aware, not lexicographic)", so a
component made of decimal digits is read as its numeric value and any
other component is read as 0. -/
def compVal (l : List Char) : Nat :=
  if l.all (fun c => c.isDigit) && !(l.isEmpty) then digitsVal l 0 else 0

/-- Modelled from the spec: `pkg_resources.parse_version` reduced to the
numeric-component reading the spec describes — the dot-separated
components of the string, each read by `compVal`. -/
def parse_version (s : String) : List Nat :=
  (pySplit s ".").map (fun c => compVal c.data)

/-- All components are zero (so the tail compares equal to an absent tail,
as in PEP-style ordering where `1.0` = `1.0.0`). -/
def allZero : List Nat → Bool
  | [] => true
  | a :: as => a == 0 && allZero as

/-- Componentwise comparison of two parsed versions, reading missing
trailing components as 0. -/
def verCmp : List Nat → List Nat → Ordering
  | [], bs => if allZero bs then Ordering.eq else Ordering.lt
  | a :: as, [] => if allZero (a :: as) then Ordering.eq else Ordering.gt
  | a :: as, b :: bs =>
    if a < b then Ordering.lt else if b < a then Ordering.gt else verCmp as bs

/-- `parse_version(a) >= parse_version(b)` (line 176 of core.py). -/
def version_ge (a b : String) : Bool :=
  !(verCmp (parse_version a) (parse_version b) == Ordering.lt)

/-! ### Parsed YAML documents

`yaml.load` returns a Python `dict`.  The module indexes the top-level
dict both with plain string keys (`yaml_dict['requirements']`, line 180)
and — crucially — with a *tuple* as a single key (`yaml_dict[y[0], y[1]]`,
line 168), so a top-level key is either a string or a pair of strings.
Values the module touches are scalars, nested mappings and sequences of
scalars. -/

/-- A key of the top-level parsed-YAML dict: a plain string, or a pair
used as one key (Python `d[a, b]` is `d[(a, b)]`). -/
inductive PyKey where
  | s (k : String)
  | pair (a b : String)
deriving DecidableEq

/-- A parsed YAML value as the module consumes it. -/
inductive YamlVal where
  /-- a scalar, already rendered to a string -/
  | str (v : String)
  /-- a nested mapping with string keys -/
  | table (m : List (String × YamlVal))
  /-- a sequence of scalar strings (a requirements list) -/
  | strs (l : List String)

/-- The top-level parsed document: a dict as an insertion-ordered
association list (Python dicts have unique keys; lookup takes the first
match). -/
abbrev YamlDoc := List (PyKey × YamlVal)

/-- Rendering of a key inside a `KeyError`. -/
def pyKeyRepr : PyKey → String
  | PyKey.s k => k
  | PyKey.pair a b => "(" ++ a ++ ", " ++ b ++ ")"

/-- Python `d[k]` on the top-level dict: the first binding of `k`, or a
`KeyError`. -/
def pyGet : List (PyKey × YamlVal) → PyKey → Except PyErr YamlVal
  | [], k => Except.error (PyErr.keyError (pyKeyRepr k))
  | (k0, v) :: rest, k => if k0 = k then Except.ok v else pyGet rest k

/-- Python `d[k]` on a flat string-to-string dict such as `yaml_strs`. -/
def strsGet : List (String × String) → String → Except PyErr String
  | [], k => Except.error (PyErr.keyError k)
  | (k0, v) :: rest, k => if k0 = k then Except.ok v else strsGet rest k

/-- Python `str(v)` on a parsed YAML value.  The module only applies it to
scalars; the renderings of a mapping or sequence (Python would print their
`repr`) are abbreviated since no claim depends on them. -/
def strOfYaml : YamlVal → String
  | YamlVal.str v => v
  | YamlVal.table _ => "<table>"
  | YamlVal.strs _ => "<list>"

/-! ### Recipe Parser — `parsed_meta_yaml` (lines 70–91) -/

/-- A Python `try`/`except` with two handlers: the first catches the
exceptions selected by `cond`, the second (a bare `except:`) catches the
rest. -/
def tryExcept2 (body : Except PyErr α) (cond : PyErr → Bool)
    (h1 : PyErr → Except PyErr α) (h2 : PyErr → Except PyErr α) :
    Except PyErr α :=
  match body with
  | Except.ok a => Except.ok a
  | Except.error e => if cond e then h1 e else h2 e

/-- A Python `try` with a single bare `except:` handler. -/
def tryExceptAll (body : Except PyErr α) (h : PyErr → Except PyErr α) :
    Except PyErr α :=
  match body with
  | Except.ok a => Except.ok a
  | Except.error e => h e

/-- The handler class test `except UndefinedError`. -/
def isUndefinedError : PyErr → Bool
  | PyErr.undefinedError => true
  | _ => false

/-- The behaviour of the Jinja/YAML collaborators on one document:
`render1` is `yaml.load(Template(text).render())` on the raw text and
`render2` is the same after the `RECIPE_DIR` placeholder substitution
(`re.sub` on line 83).  Each either produces a parsed dict or raises. -/
structure RenderEnv where
  render1 : Except PyErr YamlDoc
  render2 : Except PyErr YamlDoc

/-- `parsed_meta_yaml` (lines 70–91): try to render and parse; on an
`UndefinedError` retry once on the text with the `RECIPE_DIR` placeholder
stripped, returning `None` if the retry raises anything; on any other
exception return `None`. -/
def parsed_meta_yaml (env : RenderEnv) : Except PyErr (Option YamlDoc) :=
  tryExcept2 (Except.map some env.render1) isUndefinedError
    (fun _ => tryExceptAll (Except.map some env.render2) (fun _ => Except.ok none))
    (fun _ => Except.ok none)

/-! ### Repository Status Evaluator — `feedstock_status` (lines 150–189) -/

/-- The payload `status_data_tuple` (lines 23–27). -/
structure StatusData where
  text : String
  yaml_strs : List (String × String)
  pypi_version : String
  reqs : Finset String
  blob_sha : String
deriving DecidableEq

/-- The heterogeneous `data` slot of `fs_tuple`: Python `None`, an error
message string, or a `status_data_tuple`. -/
inductive FsData where
  | none
  | msg (s : String)
  | payload (d : StatusData)
deriving DecidableEq

/-- The `fs_status` namedtuple (lines 19–21). -/
structure FsTuple where
  success : Bool
  needs_update : Bool
  data : FsData
deriving DecidableEq

/-- The message built on line 170. -/
def fmtMissing (a b : String) : String := s!"Missing meta.yaml key: [{a}][{b}]"

/-- The loop of lines 163–170: for each `(x, (a, b))` look up the tuple
key `(a, b)` in the top-level dict, store `str(value).strip()` under `x`,
and on a `KeyError` stop with the missing-key message.  (`pyGet` raises
only `KeyError`, the class the `except` clause catches.) -/
def yamlStrsLoop (yd : YamlDoc) :
    List (String × String × String) → List (String × String) →
    Except String (List (String × String))
  | [], acc => Except.ok acc
  | (x, a, b) :: rest, acc =>
    match pyGet yd (PyKey.pair a b) with
    | Except.ok v => yamlStrsLoop yd rest (acc ++ [(x, pyStrip (strOfYaml v))])
    | Except.error _ => Except.error (fmtMissing a b)

/-- The key list of lines 164–166. -/
def requiredKeys : List (String × String × String) :=
  [("version", "package", "version"),
   ("source_fn", "source", "fn"),
   ("sha256", "source", "sha256")]

/-- Python `x.split()[0]` on a requirement string (line 181): the leading
whitespace-delimited token; `IndexError` when the string is blank. -/
def firstToken (x : String) : Except PyErr String :=
  match pySplitWs x with
  | [] => Except.error PyErr.indexError
  | t :: _ => Except.ok t

/-- The leading tokens of all requirement strings of one build stage. -/
def stageTokens : List String → Except PyErr (List String)
  | [] => Except.ok []
  | x :: xs =>
    match firstToken x with
    | Except.error e => Except.error e
    | Except.ok t =>
      match stageTokens xs with
      | Except.error e => Except.error e
      | Except.ok ts => Except.ok (t :: ts)

/-- The loop of lines 179–181 over the `requirements` mapping: for each
build stage, add the leading token of every entry to the set `reqs`.
A stage whose value is not a sequence of strings is a `TypeError` when
indexed (Python `seq[step]` with a string `step`). -/
def reqsOfTable : List (String × YamlVal) → Except PyErr (Finset String)
  | [] => Except.ok ∅
  | (_, v) :: rest =>
    match v with
    | YamlVal.strs l =>
      match stageTokens l with
      | Except.error e => Except.error e
      | Except.ok ts =>
        match reqsOfTable rest with
        | Except.error e => Except.error e
        | Except.ok r => Except.ok (ts.toFinset ∪ r)
    | _ => Except.error PyErr.typeError

/-- `full_name[12:-10]` (lines 172 and 268): strip the `conda-forge/`
prefix and the `-feedstock` suffix from a repository's full name. -/
def pkgNameOf (full_name : String) : String :=
  let l := full_name.data.drop 12
  ⟨l.take (l.length - 10)⟩

/-- `feedstock_status` (lines 150–189).  The repository-hosting fetch of
`recipe/meta.yaml` is given as `decoded_content` and `blob_sha`; the
outcome of `parsed_meta_yaml` on that content is given as `parse_result`;
`pypi` is `pypi_version_str` (line 58), `none` standing for its `False`.
The requirements lookup on line 180 is a plain-string-key access whose
`KeyError` is *not* caught, so it propagates. -/
def feedstock_status (pypi : String → Option String) (full_name : String)
    (decoded_content : String) (blob_sha : String)
    (parse_result : Option YamlDoc) : Except PyErr FsTuple :=
  match parse_result with
  | none => Except.ok ⟨false, false, FsData.msg "Couldn't parse meta.yaml"⟩
  | some yd =>
    match yamlStrsLoop yd requiredKeys [] with
    | Except.error m => Except.ok ⟨false, false, FsData.msg m⟩
    | Except.ok yaml_strs =>
      match pypi (pkgNameOf full_name) with
      | none => Except.ok ⟨false, false, FsData.msg "Couldn't find package in PyPI"⟩
      | some pypi_version => do
        let v ← strsGet yaml_strs "version"
        if version_ge v pypi_version then
          return ⟨true, false, FsData.none⟩
        else do
          let rv ← pyGet yd (PyKey.s "requirements")
          match rv with
          | YamlVal.table m => do
            let reqs ← reqsOfTable m
            return ⟨true, true,
              FsData.payload ⟨decoded_content, yaml_strs, pypi_version,
                reqs \ {"python", "setuptools"}, blob_sha⟩⟩
          | _ => throw PyErr.typeError

/-! ### Patch Builder — `basic_patch` (lines 94–127) -/

/-- The base-64 alphabet used by `base64.b64encode`. -/
def b64Alphabet : List Char :=
  "ABCDEFGHIJKLMNOPQRSTUVWXYZabcdefghijklmnopqrstuvwxyz0123456789+/".data

/-- One base-64 output character. -/
def b64Char (n : Nat) : Char := (b64Alphabet.drop n).headD '='

/-- Base-64 encode a byte list, three bytes at a time with `=` padding. -/
def b64Chars : List Nat → List Char
  | [] => []
  | [a] => [b64Char (a / 4), b64Char (a % 4 * 16), '=', '=']
  | [a, b] => [b64Char (a / 4), b64Char (a % 4 * 16 + b / 16), b64Char (b % 16 * 4), '=']
  | a :: b :: c :: rest =>
    b64Char (a / 4) :: b64Char (a % 4 * 16 + b / 16) ::
      b64Char (b % 16 * 4 + c / 64) :: b64Char (c % 64) :: b64Chars rest

/-- `b64encode(s.encode('utf-8')).decode('utf-8')` (line 123). -/
def b64OfString (s : String) : String :=
  ⟨b64Chars (s.toUTF8.toList.map (fun b => b.toNat))⟩

/-- The commit payload built on lines 121–125. -/
structure CommitDict where
  message : String
  content : String
  sha : String
deriving DecidableEq

/-- The second component of `basic_patch`'s result: an error string, or
the commit payload. -/
inductive PatchOut where
  | msg (s : String)
  | commit (c : CommitDict)
deriving DecidableEq

/-- `'-'.join(source_fn.split('-')[:-1])` (line 105): the package name
part of the source bundle filename. -/
def sourceFnBase (fn : String) : String :=
  joinWith "-" ((pySplit fn "-").dropLast)

/-- `source_fn.split(version)[-1]` (line 107): the bundle suffix after the
version string. -/
def bundleSuffix (fn version : String) : String :=
  (pySplit fn version).getLastD ""

/-- `basic_patch` (lines 94–127).  `sha_oracle` is `pypi_org_sha`
(line 30), applied to the computed package name, the new version and the
bundle suffix; `none` stands for its `None`.  Note line 119: the
replacement of the checksum reads `yaml_strs['source']['sha256']`, but
`yaml_strs` is the flat dict with keys `version`, `source_fn` and `sha256`
built on lines 163–168, so that access raises (a `KeyError` when `source`
is absent; indexing the string value with `'sha256'` would be a
`TypeError` otherwise). -/
def basic_patch (sha_oracle : String → String → String → Option String)
    (text : String) (yaml_strs : List (String × String))
    (pypi_version : String) (blob_sha : String) :
    Except PyErr (Bool × PatchOut) := do
  let fn ← strsGet yaml_strs "source_fn"
  let ver ← strsGet yaml_strs "version"
  match sha_oracle (sourceFnBase fn) pypi_version (bundleSuffix fn ver) with
  | none => return (false, PatchOut.msg "Couldn't get SHA from PyPI")
  | some pypi_sha => do
    let sha ← strsGet yaml_strs "sha256"
    if !(strHas text ver) || !(strHas text sha) then
      return (false, PatchOut.msg "Couldn't find current version or SHA in meta.yaml")
    else do
      let t1 := pyReplace text ver pypi_version
      let srcSha ← (do
        let src ← strsGet yaml_strs "source"
        let _ := src
        (throw PyErr.typeError : Except PyErr String))
      let new_text := pyReplace t1 srcSha pypi_sha
      return (true, PatchOut.commit
        ⟨"Tick version to " ++ pypi_version, b64OfString new_text, blob_sha⟩)

/-! ### Fork Synchronizer — `get_user_fork` and `even_feedstock_fork`
(lines 192–235) -/

/-- A GitHub repository as the module reads it. -/
structure Repo where
  full_name : String
  owner_login : String
deriving DecidableEq

/-- The result of `fork.compare(base=user:master, head=conda-forge:master)`
(lines 216–217). -/
structure Comparison where
  ahead_by : Nat
  behind_by : Nat
deriving DecidableEq

/-- The behaviour of the GitHub collaborator during one
`even_feedstock_fork` call: the feedstock's fork list, the results of the
(at most two) `user.create_fork` calls, the branch comparison for each
repository, and whether `fork.delete()` succeeds. -/
structure ForkEnv where
  user_login : String
  forks : List Repo
  createResult : Except PyErr Repo
  compareOf : Repo → Comparison
  deleteOk : Bool
  recreateResult : Except PyErr Repo

/-- The scan of `feedstock.get_forks()` on lines 199–201: the first fork
owned by the user, if any. -/
def findUserFork (login : String) : List Repo → Option Repo
  | [] => Option.none
  | f :: rest => if f.owner_login = login then some f else findUserFork login rest

/-- `get_user_fork` (lines 192–203): the user's existing fork, else the
result of `user.create_fork(feedstock)` (which can raise). -/
def get_user_fork (env : ForkEnv) : Except PyErr Repo :=
  match findUserFork env.user_login env.forks with
  | some f => Except.ok f
  | none => env.createResult

/-- `even_feedstock_fork` (lines 206–235), instrumented: the second
component of the result records whether `fork.delete()` was invoked.  The
first component is the function's return value, `none` standing for
Python `None`. -/
def even_feedstock_fork (env : ForkEnv) : Except PyErr (Option Repo × Bool) := do
  let fork ← get_user_fork env
  let comparison := env.compareOf fork
  if comparison.ahead_by > 0 then
    return (Option.none, false)
  else if comparison.behind_by > 0 then
    if env.deleteOk then do
      let fork2 ← env.recreateResult
      return (some fork2, true)
    else
      return (Option.none, true)
  else
    return (some fork, false)

/-! ### Orchestrator — `tick_feedstocks` (lines 238–326)

The enumeration and authentication steps are external; the embedding
starts from the zipped list of `(full_name, status)` pairs built on
lines 256–258 and follows the code to the final report. -/

/-- The loop of lines 260–266: partition the `(full_name, status)` pairs
into `can_be_updated` (success and needs update) and `cannot_be_updated`
(recorded as `(full_name, status.data)`), keeping order. -/
def split_updates : List (String × FsTuple) →
    List (String × FsTuple) × List (String × FsData)
  | [] => ([], [])
  | p :: rest =>
    if p.2.success && p.2.needs_update then
      (p :: (split_updates rest).1, (split_updates rest).2)
    else
      ((split_updates rest).1, (p.1, p.2.data) :: (split_updates rest).2)

/-- Line 268: the set of package names of every repository in the
needs-update batch. -/
def package_names (can : List (String × FsTuple)) : Finset String :=
  (can.map (fun x => pkgNameOf x.1)).toFinset

/-- The attribute access `x[1].data.reqs` on line 271.  Entries of
`can_be_updated` produced by `feedstock_status` with `needs_update` set
always carry a `status_data_tuple` payload; on any other `data` value
Python would raise `AttributeError`, a case the planner never meets and
that is read as the empty set here. -/
def dataReqs : FsData → Finset String
  | FsData.payload d => d.reqs
  | _ => ∅

/-- Lines 270–271: keep the needs-update repositories whose requirement
set meets none of the batch's package names. -/
def indep_updates (can : List (String × FsTuple)) : List (String × FsTuple) :=
  can.filter (fun x => decide ((dataReqs x.2.data ∩ package_names can).card < 1))

/-- The attribute accesses `update[1].data.text` … on lines 278–281: the
payload of a needs-update status; `AttributeError` on any other value. -/
def payloadOf : FsData → Except PyErr StatusData
  | FsData.payload d => Except.ok d
  | _ => Except.error PyErr.attributeError

/-- The external behaviour met while processing one update: the
`pypi_org_sha` scrape used by `basic_patch`, the GitHub behaviour used by
`even_feedstock_fork`, and whether the `requests.put` push (lines
297–301) returns a 2xx status. -/
structure UpdateEnv where
  sha_oracle : String → String → String → Option String
  fork_env : ForkEnv
  push_ok : Bool

/-- The per-update loop of lines 276–309, processing updates in order.
Result: `(successful_updates, successful_forks, failed_updates)`.  Any
exception raised by a step propagates and aborts the whole loop, exactly
as an uncaught Python exception would. -/
def process_updates (envOf : String → UpdateEnv) :
    List (String × FsTuple) →
    Except PyErr (List (String × FsTuple) × List Repo × List (String × FsTuple))
  | [] => Except.ok ([], [], [])
  | u :: rest => do
    let env := envOf u.1
    let d ← payloadOf u.2.data
    let patch ← basic_patch env.sha_oracle d.text d.yaml_strs d.pypi_version d.blob_sha
    if patch.1 = false then do
      let (su, sf, fu) ← process_updates envOf rest
      return (su, sf, u :: fu)
    else do
      let forkRes ← even_feedstock_fork env.fork_env
      match forkRes.1 with
      | Option.none => do
        let (su, sf, fu) ← process_updates envOf rest
        return (su, sf, u :: fu)
      | some fork =>
        if env.push_ok then do
          let (su, sf, fu) ← process_updates envOf rest
          return (u :: su, fork :: sf, fu)
        else do
          let (su, sf, fu) ← process_updates envOf rest
          return (su, sf, u :: fu)

/-- Python `str()` of a `data` slot as printed on line 321: `None` prints
as `"None"`, a message string as itself.  (The `repr` of a full
`status_data_tuple` is abbreviated; no claim depends on it.) -/
def fsDataRepr : FsData → String
  | FsData.none => "None"
  | FsData.msg s => s
  | FsData.payload _ => "<status_data>"

/-- The report of lines 318–326: the `Couldn't update:` section listing
every non-updatable repository with its reason, then the
`Failed to update:` section listing every failed update. -/
def report_lines (cannot : List (String × FsData))
    (failed : List (String × FsTuple)) : List String :=
  "Couldn't update:" ::
    (cannot.map (fun t => "  " ++ t.1 ++ ": " ++ fsDataRepr t.2) ++
      ("Failed to update:" :: failed.map (fun u => " " ++ u.1)))

/-- `tick_feedstocks` from the computed statuses to the printed report
(lines 260–326, the re-render subprocess calls being external no-ops for
the data flow): partition, plan the independent subset, process each
update, then report.  An exception escaping a per-update step aborts the
run before any report is produced. -/
def tick_from_statuses (envOf : String → UpdateEnv)
    (pairs : List (String × FsTuple)) : Except PyErr (List String) := do
  let (can, cannot) := split_updates pairs
  let indep := indep_updates can
  let (_, _, fu) ← process_updates envOf indep
  return report_lines cannot fu

/-! ## Theorems -/

/-- Binding a successful `Except` computation runs the continuation. -/
theorem exceptOkBind {α β : Type} (a : α) (k : α → Except PyErr β) :
    (Except.ok a >>= k) = k a := rfl

/-- Binding a raised exception propagates it. -/
theorem exceptErrBind {α β : Type} (e : PyErr) (k : α → Except PyErr β) :
    ((Except.error e : Except PyErr α) >>= k) = Except.error e := rfl

/-- The two-repository batch of the claim: `a` requires the package `b`,
which is also in the needs-update batch; `b` requires nothing. -/
def c1RepoA : String × FsTuple :=
  ("conda-forge/a-feedstock",
    ⟨true, true, FsData.payload ⟨"textA", [("version", "1.0")], "2.0", {"b"}, "shaA"⟩⟩)

/-- The second repository of the claim's batch: no requirements. -/
def c1RepoB : String × FsTuple :=
  ("conda-forge/b-feedstock",
    ⟨true, true, FsData.payload ⟨"textB", [("version", "1.0")], "2.0", ∅, "shaB"⟩⟩)

/-- C1: the Batch Planner keeps exactly the needs-update repositories
whose requirement set has empty intersection with the package names of
all repositories in the needs-update batch; and on the batch where `a`
depends on `b` and `b` depends on nothing, the plan is exactly `[b]`. -/
theorem C1_batch_planner_exact :
    (∀ (can : List (String × FsTuple)) (x : String × FsTuple),
        x ∈ indep_updates can ↔
          x ∈ can ∧ dataReqs x.2.data ∩ package_names can = ∅) ∧
    indep_updates [c1RepoA, c1RepoB] = [c1RepoB] := by
  constructor
  · intro can x
    rw [indep_updates, List.mem_filter]
    simp only [decide_eq_true_eq, Nat.lt_one_iff, Finset.card_eq_zero]
  · decide

/-- C2: when the branch comparison of the obtained fork reports
`ahead_by > 0`, `even_feedstock_fork` returns `None` and the
`fork.delete()` call is never made. -/
theorem C2_ahead_fork_untouched (env : ForkEnv) (f : Repo)
    (hf : get_user_fork env = Except.ok f)
    (ha : (env.compareOf f).ahead_by > 0) :
    even_feedstock_fork env = Except.ok (Option.none, false) := by
  unfold even_feedstock_fork
  rw [hf, exceptOkBind]
  rw [if_pos ha]
  rfl

/-- A GitHub behaviour whose comparison reports the fork two commits
ahead. -/
def c2Env : ForkEnv :=
  ⟨"alice", [⟨"alice/widget-feedstock", "alice"⟩],
    Except.error PyErr.githubException, fun _ => ⟨2, 0⟩, true,
    Except.error PyErr.githubException⟩

/-- Witness for C2 at a concrete environment. -/
theorem C2_ahead_fork_untouched_witness :
    even_feedstock_fork c2Env = Except.ok (Option.none, false) :=
  C2_ahead_fork_untouched c2Env ⟨"alice/widget-feedstock", "alice"⟩
    (by decide) (by decide)

/-- C4: when the checksum scrape succeeds but the old version string or
the old checksum string is not literally present in the raw text,
`basic_patch` rejects with the line-116 message and produces no patch.
The `yaml_strs` dict is exactly the one `feedstock_status` builds, with
keys `version`, `source_fn` and `sha256`. -/
theorem C4_patch_rejects_missing_literals
    (oracle : String → String → String → Option String)
    (text v fn sh pv blob s : String)
    (hs : oracle (sourceFnBase fn) pv (bundleSuffix fn v) = some s)
    (habs : strHas text v = false ∨ strHas text sh = false) :
    basic_patch oracle text [("version", v), ("source_fn", fn), ("sha256", sh)] pv blob =
      Except.ok (false, PatchOut.msg "Couldn't find current version or SHA in meta.yaml") := by
  unfold basic_patch
  rcases habs with h | h <;> simp [strsGet, exceptOkBind, hs, h] <;> rfl

/-- Witness for C4: a text that contains neither the old version nor the
old checksum. -/
theorem C4_patch_rejects_missing_literals_witness :
    basic_patch (fun _ _ _ => some "bbb") "package version 2.0.0 sha zzz"
      [("version", "1.0.0"), ("source_fn", "widget-1.0.0.tar.gz"), ("sha256", "aaa")]
      "1.2.0" "BLOB" =
      Except.ok (false, PatchOut.msg "Couldn't find current version or SHA in meta.yaml") :=
  C4_patch_rejects_missing_literals (fun _ _ _ => some "bbb")
    "package version 2.0.0 sha zzz" "1.0.0" "widget-1.0.0.tar.gz" "aaa"
    "1.2.0" "BLOB" "bbb" (by decide) (Or.inl (by decide))

/-- C5 (failing input): on the spec's own end-to-end example — recipe
version `1.0.0`, source filename `widget-1.0.0.tar.gz`, checksum `aaa`,
resolved version `1.2.0` with new checksum `bbb`, both old literals
present in the text — `basic_patch` does not return the replaced
document: the checksum replacement on line 119 reads
`yaml_strs['source']['sha256']`, and `yaml_strs` is the flat dict with
keys `version`, `source_fn`, `sha256`, so the success path raises
`KeyError('source')`. -/
theorem C5_patch_success_path_raises :
    basic_patch (fun _ _ _ => some "bbb")
      "version: 1.0.0 fn: widget-1.0.0.tar.gz sha256: aaa"
      [("version", "1.0.0"), ("source_fn", "widget-1.0.0.tar.gz"), ("sha256", "aaa")]
      "1.2.0" "BLOB" = Except.error (PyErr.keyError "source") := by decide

/-- C6 (failing input): a parsed recipe document with nested
`package.version` and `source.fn` present and only `source.sha256`
missing.  Line 168 indexes the document with the tuple `(section, key)`
as a single key, so the reported missing path is `[package][version]`,
not `[source][sha256]`. -/
theorem C6_missing_sha_misreported :
    feedstock_status (fun _ => some "1.2.0") "conda-forge/widget-feedstock"
      "TXT" "SHA"
      (some [(PyKey.s "package", YamlVal.table [("version", YamlVal.str "1.0.0")]),
             (PyKey.s "source", YamlVal.table [("fn", YamlVal.str "widget-1.0.0.tar.gz")]),
             (PyKey.s "requirements", YamlVal.table [("run", YamlVal.strs ["numpy"])])]) =
      Except.ok ⟨false, false, FsData.msg "Missing meta.yaml key: [package][version]"⟩ := by
  decide

/-- C3: when the three tuple-key extractions and the PyPI lookup succeed,
`feedstock_status` returns `UpToDate` (success, no update) exactly when
the recipe's version is ≥ the resolved version under the
numeric-component version ordering, and otherwise `NeedsUpdate` carrying
the raw text, the extracted strings, the resolved version and the
requirement set with `python` and `setuptools` removed. -/
theorem C3_version_comparison_classifies
    (pypi : String → Option String) (full_name decoded blob : String)
    (yd : YamlDoc) (v fn sh pv : String)
    (m : List (String × YamlVal)) (R : Finset String)
    (h1 : pyGet yd (PyKey.pair "package" "version") = Except.ok (YamlVal.str v))
    (h2 : pyGet yd (PyKey.pair "source" "fn") = Except.ok (YamlVal.str fn))
    (h3 : pyGet yd (PyKey.pair "source" "sha256") = Except.ok (YamlVal.str sh))
    (h4 : pypi (pkgNameOf full_name) = some pv)
    (h5 : pyGet yd (PyKey.s "requirements") = Except.ok (YamlVal.table m))
    (h6 : reqsOfTable m = Except.ok R) :
    (version_ge (pyStrip v) pv = true →
      feedstock_status pypi full_name decoded blob (some yd) =
        Except.ok ⟨true, false, FsData.none⟩) ∧
    (version_ge (pyStrip v) pv = false →
      feedstock_status pypi full_name decoded blob (some yd) =
        Except.ok ⟨true, true, FsData.payload
          ⟨decoded,
           [("version", pyStrip v), ("source_fn", pyStrip fn), ("sha256", pyStrip sh)],
           pv, R \ {"python", "setuptools"}, blob⟩⟩) := by
  constructor <;> intro hge <;>
    simp [feedstock_status, requiredKeys, yamlStrsLoop, h1, h2, h3, h4, h5, h6,
      strOfYaml, strsGet, exceptOkBind, hge, pure, Except.pure]

/-- A document whose top-level keys are the tuples the extraction looks
up (plus the requirements table); recipe version `10.0.0`. -/
def c3Doc : YamlDoc :=
  [(PyKey.pair "package" "version", YamlVal.str "10.0.0"),
   (PyKey.pair "source" "fn", YamlVal.str "widget-10.0.0.tar.gz"),
   (PyKey.pair "source" "sha256", YamlVal.str "aaa"),
   (PyKey.s "requirements",
     YamlVal.table [("build", YamlVal.strs ["python", "setuptools", "numpy >=1.11"]),
                    ("run", YamlVal.strs ["numpy", "six"])])]

/-- The PyPI lookup resolving `widget` to `9.0.0`. -/
def c3Pypi : String → Option String :=
  fun n => if n = "widget" then some "9.0.0" else none

/-- Witness for C3: version `10.0.0` against resolved `9.0.0` is
up to date under the numeric-component ordering (lexicographically the
strings would compare the other way). -/
theorem C3_version_comparison_classifies_witness :
    feedstock_status c3Pypi "conda-forge/widget-feedstock" "TXT" "SHA" (some c3Doc) =
      Except.ok ⟨true, false, FsData.none⟩ :=
  (C3_version_comparison_classifies c3Pypi "conda-forge/widget-feedstock" "TXT" "SHA"
    c3Doc "10.0.0" "widget-10.0.0.tar.gz" "aaa" "9.0.0"
    [("build", YamlVal.strs ["python", "setuptools", "numpy >=1.11"]),
     ("run", YamlVal.strs ["numpy", "six"])]
    {"python", "setuptools", "numpy", "six"}
    rfl rfl rfl (by decide) rfl (by decide)).1 (by decide)

/-- A GitHub behaviour for the C7 run (never consulted: the run aborts
inside `basic_patch` before any fork work). -/
def c7ForkEnv : ForkEnv :=
  ⟨"alice", [], Except.error PyErr.githubException, fun _ => ⟨0, 0⟩, true,
    Except.error PyErr.githubException⟩

/-- The external behaviour for the C7 run: the checksum scrape succeeds
and the push would be accepted. -/
def c7Env : UpdateEnv := ⟨fun _ _ _ => some "bbb", c7ForkEnv, true⟩

/-- A needs-update status whose payload is exactly what
`feedstock_status` builds: both old literals are present in the text and
the requirement set is empty, so the repository is planned and its patch
is attempted. -/
def c7Status : FsTuple :=
  ⟨true, true, FsData.payload
    ⟨"version: 1.0.0 fn: widget-1.0.0.tar.gz sha256: aaa",
     [("version", "1.0.0"), ("source_fn", "widget-1.0.0.tar.gz"), ("sha256", "aaa")],
     "1.2.0", ∅, "BLOB"⟩⟩

/-- C7 (failing input): one perfectly ordinary updatable repository makes
the per-repository loop of `tick_feedstocks` raise — `basic_patch`'s
success path hits the `yaml_strs['source']` access of line 119 and the
resulting `KeyError` is caught nowhere in the loop, so the run aborts
with the exception and the final report is never produced. -/
theorem C7_per_repo_exception_aborts_run :
    tick_from_statuses (fun _ => c7Env)
      [("conda-forge/widget-feedstock", c7Status)] =
      Except.error (PyErr.keyError "source") := by decide

/-- C8: `parsed_meta_yaml` never lets an exception escape: whatever the
rendering and parsing attempts do — succeed, raise `UndefinedError`,
raise anything else — it returns a value (a parsed document or `None`). -/
theorem C8_parser_never_raises (env : RenderEnv) :
    ∃ r : Option YamlDoc, parsed_meta_yaml env = Except.ok r := by
  unfold parsed_meta_yaml tryExcept2 tryExceptAll
  cases h1 : env.render1 with
  | ok d => exact ⟨some d, rfl⟩
  | error e =>
    cases he : isUndefinedError e with
    | false => exact ⟨Option.none, by simp [Except.map, he]⟩
    | true =>
      cases h2 : env.render2 with
      | ok d => exact ⟨some d, by simp [Except.map, he]⟩
      | error f => exact ⟨Option.none, by simp [Except.map, he]⟩

/-- In a top-level dict whose keys are all plain strings, a tuple-key
lookup always raises `KeyError`. -/
theorem pyGet_pair_of_string_keys (yd : YamlDoc) (a b : String)
    (h : ∀ p ∈ yd, ∃ k, p.1 = PyKey.s k) :
    ∃ e, pyGet yd (PyKey.pair a b) = Except.error e := by
  induction yd with
  | nil => exact ⟨PyErr.keyError (pyKeyRepr (PyKey.pair a b)), rfl⟩
  | cons p rest ih =>
    obtain ⟨k, hk⟩ := h p (by simp)
    obtain ⟨e, he⟩ := ih (fun q hq => h q (by simp [hq]))
    refine ⟨e, ?_⟩
    show (if p.1 = PyKey.pair a b then Except.ok p.2 else pyGet rest (PyKey.pair a b)) =
      Except.error e
    rw [if_neg (by simp [hk]), he]

/-- C9: on a document whose parsed mapping has only string keys — which
is what YAML parsing produces — the required-field extraction of lines
163–170 indexes the dict with the pair `(section, key)` as a single key,
so the very first lookup raises and `feedstock_status` always returns
the missing-key failure for `[package][version]`, never `UpToDate` or
`NeedsUpdate`. -/
theorem C9_string_keys_always_missing
    (pypi : String → Option String) (full_name decoded blob : String)
    (yd : YamlDoc) (h : ∀ p ∈ yd, ∃ k, p.1 = PyKey.s k) :
    feedstock_status pypi full_name decoded blob (some yd) =
      Except.ok ⟨false, false, FsData.msg (fmtMissing "package" "version")⟩ := by
  obtain ⟨e, he⟩ := pyGet_pair_of_string_keys yd "package" "version" h
  simp [feedstock_status, requiredKeys, yamlStrsLoop, he]

/-- Witness for C9: a concrete string-keyed document with every nested
field present still yields the `[package][version]` failure. -/
theorem C9_string_keys_always_missing_witness :
    feedstock_status (fun _ => some "1.2.0") "conda-forge/widget-feedstock" "TXT" "SHA"
      (some [(PyKey.s "package", YamlVal.table [("version", YamlVal.str "1.0.0")]),
             (PyKey.s "source",
               YamlVal.table [("fn", YamlVal.str "widget-1.0.0.tar.gz"),
                              ("sha256", YamlVal.str "aaa")])]) =
      Except.ok ⟨false, false, FsData.msg (fmtMissing "package" "version")⟩ :=
  C9_string_keys_always_missing (fun _ => some "1.2.0") "conda-forge/widget-feedstock"
    "TXT" "SHA" _
    (by
      intro p hp
      simp only [List.mem_cons, List.not_mem_nil, or_false] at hp
      rcases hp with rfl | rfl
      · exact ⟨"package", rfl⟩
      · exact ⟨"source", rfl⟩)

/-- Inversion of the Repository Status Evaluator: an `Except.ok` result
with `success` set and `needs_update` clear can only come from the
up-to-date branch of line 177, whose `data` slot is Python `None`. -/
theorem feedstock_status_up_to_date_data
    (pypi : String → Option String) (full decoded blob : String)
    (pr : Option YamlDoc) (t : FsTuple)
    (hok : feedstock_status pypi full decoded blob pr = Except.ok t)
    (hs : t.success = true) (hn : t.needs_update = false) :
    t.data = FsData.none := by
  cases pr with
  | none =>
    simp only [feedstock_status] at hok
    injection hok with h; rw [← h] at hs; simp at hs
  | some yd =>
    simp only [feedstock_status] at hok
    cases hy : yamlStrsLoop yd requiredKeys [] with
    | error m =>
      simp only [hy] at hok
      injection hok with h; rw [← h] at hs; simp at hs
    | ok ys =>
      simp only [hy] at hok
      cases hp : pypi (pkgNameOf full) with
      | none =>
        simp only [hp] at hok
        injection hok with h; rw [← h] at hs; simp at hs
      | some pv =>
        simp only [hp] at hok
        cases hv : strsGet ys "version" with
        | error e =>
          simp only [hv, exceptErrBind] at hok
          exact Except.noConfusion hok
        | ok v =>
          simp only [hv, exceptOkBind] at hok
          by_cases hge : version_ge v pv = true
          · rw [if_pos hge] at hok
            injection hok with h; rw [← h]
          · rw [if_neg hge] at hok
            cases hr : pyGet yd (PyKey.s "requirements") with
            | error e =>
              simp only [hr, exceptErrBind] at hok
              exact Except.noConfusion hok
            | ok rv =>
              simp only [hr, exceptOkBind] at hok
              cases rv with
              | str s => simp [throw, throwThe, MonadExceptOf.throw] at hok
              | strs l => simp [throw, throwThe, MonadExceptOf.throw] at hok
              | table m =>
                cases hq : reqsOfTable m with
                | error e =>
                  simp only [hq, exceptErrBind] at hok
                  exact Except.noConfusion hok
                | ok R =>
                  simp only [hq, exceptOkBind] at hok
                  injection hok with h; rw [← h] at hn; simp at hn

/-- Any pair of the input whose status does not need an update lands,
with its `data` slot, in the `cannot_be_updated` list. -/
theorem split_updates_mem (pairs : List (String × FsTuple)) (name : String)
    (st : FsTuple) (hmem : (name, st) ∈ pairs) (hn : st.needs_update = false) :
    (name, st.data) ∈ (split_updates pairs).2 := by
  induction pairs with
  | nil => cases hmem
  | cons p rest ih =>
    rcases List.mem_cons.mp hmem with h | h
    · rw [← h]
      simp [split_updates, hn]
    · cases hc : (p.2.success && p.2.needs_update) with
      | true => simpa [split_updates, hc] using ih h
      | false =>
        simp only [split_updates, hc, Bool.false_eq_true, if_false]
        exact List.mem_cons_of_mem _ (ih h)

/-- Every entry of the `cannot_be_updated` list is printed in the
`Couldn't update:` section of the final report. -/
theorem report_lines_mem (cannot : List (String × FsData))
    (failed : List (String × FsTuple)) (t : String × FsData) (h : t ∈ cannot) :
    ("  " ++ t.1 ++ ": " ++ fsDataRepr t.2) ∈ report_lines cannot failed := by
  unfold report_lines
  exact List.mem_cons_of_mem _ (List.mem_append_left _ (List.mem_map_of_mem _ h))

/-- C10: a repository evaluated as already up to date (success with no
update needed) carries `data = None`, is appended to the
`cannot_be_updated` list as `(name, None)`, and is printed in the
`Couldn't update:` report section — alongside the genuine failures —
whatever the list of failed updates is. -/
theorem C10_up_to_date_reported :
    (∀ (pypi : String → Option String) (full decoded blob : String)
        (pr : Option YamlDoc) (t : FsTuple),
        feedstock_status pypi full decoded blob pr = Except.ok t →
        t.success = true → t.needs_update = false → t.data = FsData.none) ∧
    (∀ (pairs : List (String × FsTuple)) (name : String) (st : FsTuple),
        (name, st) ∈ pairs → st.success = true → st.needs_update = false →
        (name, st.data) ∈ (split_updates pairs).2 ∧
        ∀ failed, ("  " ++ name ++ ": " ++ fsDataRepr st.data) ∈
          report_lines (split_updates pairs).2 failed) := by
  constructor
  · exact fun pypi full decoded blob pr t hok hs hn =>
      feedstock_status_up_to_date_data pypi full decoded blob pr t hok hs hn
  · intro pairs name st hmem hs hn
    have hm := split_updates_mem pairs name st hmem hn
    exact ⟨hm, fun failed => report_lines_mem _ failed (name, st.data) hm⟩

/-- An up-to-date recipe for the C10 witness: tuple-keyed extraction
succeeds and the recipe version `2.0` beats the resolved `1.0`. -/
def c10Doc : YamlDoc :=
  [(PyKey.pair "package" "version", YamlVal.str "2.0"),
   (PyKey.pair "source" "fn", YamlVal.str "widget-2.0.tar.gz"),
   (PyKey.pair "source" "sha256", YamlVal.str "aaa")]

/-- The one-repository status list for the C10 witness. -/
def c10Pairs : List (String × FsTuple) :=
  [("conda-forge/widget-feedstock", ⟨true, false, FsData.none⟩)]

/-- Witness for C10 at a concrete up-to-date repository. -/
theorem C10_up_to_date_reported_witness :
    FsTuple.data ⟨true, false, FsData.none⟩ = FsData.none ∧
    ("conda-forge/widget-feedstock", FsData.none) ∈ (split_updates c10Pairs).2 ∧
    "  conda-forge/widget-feedstock: None" ∈ report_lines (split_updates c10Pairs).2 [] := by
  refine ⟨?_, ?_, ?_⟩
  · exact C10_up_to_date_reported.1 (fun n => if n = "widget" then some "1.0" else none)
      "conda-forge/widget-feedstock" "TXT" "SHA" (some c10Doc)
      ⟨true, false, FsData.none⟩ (by decide) rfl rfl
  · exact (C10_up_to_date_reported.2 c10Pairs "conda-forge/widget-feedstock"
      ⟨true, false, FsData.none⟩ (by decide) rfl rfl).1
  · exact (C10_up_to_date_reported.2 c10Pairs "conda-forge/widget-feedstock"
      ⟨true, false, FsData.none⟩ (by decide) rfl rfl).2 []

end TickFeedstocks
